import Mathlib

/-!
Verification of the account-lifecycle orchestrator in `main.py` of the
cursorRegister repository.  The orchestrator (`CursorApp`) exposes four
workflows — Generate Account (`generate_account`), Reset ID (`reset_ID`),
Update Auth (`update_auth`) and Auto Register (`auto_register`) — which
compose a backup step, a persisted key-value store and external black-box
operations.  We embed the orchestrator shallowly: application state is a
record of the visible entry fields, the backing `.env` store and the backup
directory; external operations are stub results supplied as parameters;
each workflow is a total function from state to (state, event trace), with
the uniform error boundary (`error_handler`) folded in as `showError`
events.  UI rendering is out of scope, as in the specification.
-/

namespace CursorApp

/-- Python `str.strip()`: drop leading and trailing whitespace characters. -/
def pyStrip (s : String) : String :=
  ⟨((s.data.dropWhile Char.isWhitespace).reverse.dropWhile Char.isWhitespace).reverse⟩

/-- Python `needle in haystack` substring containment on strings. -/
def containsSubstr (needle haystack : String) : Bool :=
  decide (needle.data <:+: haystack.data)

/-- Modelled from the spec: the Result Envelope of `cursor_utils` (not under
`src/`): a uniform success/failure wrapper with a message and an optional
payload (a 2-tuple of strings for account generation).  Its Python truthiness
is its `success` flag. -/
structure Result where
  success : Bool
  message : String
  data : Option (String × String)
deriving DecidableEq, Repr

/-- Result of the external account-generation operation: either a structured
Result envelope (`Sum.inl`) or a legacy plain 2-tuple (`Sum.inr`), as in
`result.data if isinstance(result, Result) else result` at `main.py:303`. -/
abbrev GenResult := Result ⊕ (String × String)

/-- Python truthiness of a generation result: an envelope is truthy iff
`success`; a (nonempty) tuple is always truthy. -/
def genTruthy : GenResult → Bool
  | Sum.inl r => r.success
  | Sum.inr _ => true

/-- Message attribute of a generation result (read only on the falsy path,
where the result is an envelope). -/
def genMessage : GenResult → String
  | Sum.inl r => r.message
  | Sum.inr _ => ""

/-- Unpacking `email, password = result.data if isinstance(result, Result)
else result` (`main.py:303`); unpacking a missing payload raises. -/
def genCredsE : GenResult → Except String (String × String)
  | Sum.inl r =>
      match r.data with
      | some t => Except.ok t
      | none => Except.error "cannot unpack non-iterable NoneType object"
  | Sum.inr t => Except.ok t

/-- The visible entry fields of the window: the three recognized environment
fields (`WindowConfig.env_vars`: DOMAIN, EMAIL, PASSWORD) and the cookie
field. -/
structure Entries where
  domain : String
  email : String
  password : String
  cookie : String
deriving DecidableEq, Repr

/-- The persisted key-value store is modelled as an association list of the
backing `.env` file, plus whether that file exists, plus the backup
directory (a list of store snapshots, newest last). -/
structure AppState where
  entries : Entries
  store : List (String × String)
  envFileExists : Bool
  backups : List (List (String × String))
deriving DecidableEq, Repr

/-- Observable events of one workflow invocation, in order. -/
inductive Event where
  | backup
  | storeWrite (updates : List (String × String))
  | reloadEnv
  | callGenerate
  | callReset
  | callProcessCookies (cookie : String)
  | browserInit
  | fillForm
  | waitUser (msg : String)
  | fillPassword
  | getUserInfo
  | getToken
  | browserQuit
  | showSuccess (msg : String)
  | showWarning (msg : String)
  | showError (msg : String)
deriving DecidableEq, Repr

/-- Modelled from the spec: outcomes of the external collaborators used by a
workflow invocation — `Utils.backup_file` and `Utils.update_env_vars` of
`cursor_utils` return booleans (false on I/O failure; on failure the store
file is unchanged, writes being atomic per spec §4.1), and the three
black-box operations return Result envelopes (generation also in legacy
tuple shape). -/
structure Stubs where
  backupOk : Bool
  updateEnvOk : Bool
  genResult : GenResult
  resetResult : Result
  processResult : Result
deriving Repr

/-- Write one key into the store, superseding an existing binding key-by-key
and appending a fresh key. -/
def setKey (store : List (String × String)) (k v : String) :
    List (String × String) :=
  if store.any (fun p => p.1 = k) then
    store.map (fun p => if p.1 = k then (k, v) else p)
  else store ++ [(k, v)]

/-- Merge an update mapping into the store, preserving keys absent from the
updates (spec §4.1: merge, not replace). -/
def mergeStore (store updates : List (String × String)) :
    List (String × String) :=
  updates.foldl (fun s p => setKey s p.1 p.2) store

/-- The update mapping `_save_env_vars` builds when called with no explicit
updates (`main.py:272-277`): for each recognized variable in order DOMAIN,
EMAIL, PASSWORD, the stripped entry value, included only when that stripped
value is non-empty (Python dict-comprehension truthiness filter). -/
def visibleUpdates (e : Entries) : List (String × String) :=
  (if pyStrip e.domain ≠ "" then [("DOMAIN", pyStrip e.domain)] else []) ++
  (if pyStrip e.email ≠ "" then [("EMAIL", pyStrip e.email)] else []) ++
  (if pyStrip e.password ≠ "" then [("PASSWORD", pyStrip e.password)] else [])

/-- The `_save_env_vars()` call in its no-argument form (`main.py:271-280`):
build the visible updates; when non-empty, call `Utils.update_env_vars` and
warn if that returns false.  Returns the new state and the events emitted. -/
def save_env_vars (st : Stubs) (s : AppState) : AppState × List Event :=
  let ups := visibleUpdates s.entries
  if ups = [] then (s, [])
  else if st.updateEnvOk then
    ({ s with store := mergeStore s.store ups }, [Event.storeWrite ups])
  else
    (s, [Event.storeWrite ups, Event.showWarning "保存环境变量失败"])

/-- The `backup_env_file` step (`main.py:282-289`): raises when the `.env`
file is missing, raises when `Utils.backup_file` fails, otherwise records a
snapshot of the store in the backup directory. -/
def backup_env_file (st : Stubs) (s : AppState) :
    Except String (AppState × List Event) :=
  if ¬ s.envFileExists then
    Except.error "未找到.env文件"
  else if ¬ st.backupOk then
    Except.error "备份文件失败"
  else
    Except.ok ({ s with backups := s.backups ++ [s.store] }, [Event.backup])

/-- Continuation of `generate_account` after the backup and domain steps
(`main.py:300-309`): invoke the external generation operation, raise its
message when falsy, unpack email/password from either shape, overwrite the
visible email/password fields, report success, then persist visible
fields. -/
def generate_account_rest (st : Stubs) (s : AppState) (tr : List Event) :
    AppState × List Event :=
  let tr1 := tr ++ [Event.callGenerate]
  if ¬ genTruthy st.genResult then
    (s, tr1 ++ [Event.showError (genMessage st.genResult)])
  else
    match genCredsE st.genResult with
    | Except.error m => (s, tr1 ++ [Event.showError m])
    | Except.ok (email, password) =>
        let s2 := { s with entries :=
          { s.entries with email := email, password := password } }
        let r := save_env_vars st s2
        (r.1, tr1 ++ [Event.showSuccess "账号生成成功"] ++ r.2)

/-- The Generate Account workflow (`main.py:291-309`) under the
`error_handler` boundary: backup the store; if the stripped domain field is
non-empty, persist it (raising on failure) and reload the environment; then
proceed with the external generation operation. -/
def generate_account (st : Stubs) (s : AppState) : AppState × List Event :=
  match backup_env_file st s with
  | Except.error msg => (s, [Event.showError msg])
  | Except.ok (s1, tr1) =>
      let d := pyStrip s1.entries.domain
      if d ≠ "" then
        if st.updateEnvOk then
          let s2 := { s1 with store := mergeStore s1.store [("DOMAIN", d)] }
          generate_account_rest st s2
            (tr1 ++ [Event.storeWrite [("DOMAIN", d)], Event.reloadEnv])
        else
          (s1, tr1 ++ [Event.storeWrite [("DOMAIN", d)],
                       Event.showError "保存域名失败"])
      else
        generate_account_rest st s1 tr1

/-- The Reset ID workflow (`main.py:311-316`) under the `error_handler`
boundary: invoke the external reset operation, raise its message when falsy,
otherwise report its message and persist visible fields. -/
def reset_ID (st : Stubs) (s : AppState) : AppState × List Event :=
  let tr := [Event.callReset]
  if ¬ st.resetResult.success then
    (s, tr ++ [Event.showError st.resetResult.message])
  else
    let r := save_env_vars st s
    (r.1, tr ++ [Event.showSuccess st.resetResult.message] ++ r.2)

/-- The fixed required token name of the Update Auth validation gate. -/
def requiredToken : String := "WorkosCursorSessionToken"

/-- The Update Auth workflow (`main.py:318-335`) under the `error_handler`
boundary: validate the stripped cookie string (non-empty, and containing
the substring `"WorkosCursorSessionToken="` — the token name immediately
followed by an equals sign); then backup, invoke the external
cookie-processing operation on the stripped cookie string, raise its
message when falsy, else report its message, clear the cookie field and
persist visible fields. -/
def update_auth (st : Stubs) (s : AppState) : AppState × List Event :=
  let cookie := pyStrip s.entries.cookie
  if cookie = "" then
    (s, [Event.showWarning "请输入Cookie字符串"])
  else if ¬ containsSubstr (requiredToken ++ "=") cookie then
    (s, [Event.showWarning "Cookie字符串格式不正确，必须包含 WorkosCursorSessionToken"])
  else
    match backup_env_file st s with
    | Except.error msg => (s, [Event.showError msg])
    | Except.ok (s1, tr1) =>
        let tr2 := tr1 ++ [Event.callProcessCookies cookie]
        if ¬ st.processResult.success then
          (s1, tr2 ++ [Event.showError st.processResult.message])
        else
          let s2 := { s1 with entries := { s1.entries with cookie := "" } }
          let r := save_env_vars st s2
          (r.1, tr2 ++ [Event.showSuccess st.processResult.message] ++ r.2)

/-- Modelled from the spec: the browser-automation collaborator of
`cursor_registerAc` (not under `src/`; spec §6 external collaborator) — each
lifecycle step either succeeds or raises with a message; `get-token` yields
a string (possibly empty) or raises; a handle exists once browser-init has
succeeded, and teardown closes it. -/
structure BrowserStub where
  initRes : Except String Unit
  fillFormRes : Except String Unit
  fillPasswordRes : Except String Unit
  getUserInfoRes : Except String Unit
  getTokenRes : Except String String
deriving Repr

/-- The Auto Register workflow (`main.py:337-391`) under the `error_handler`
boundary: persist visible fields, reload the environment, then drive the
browser-automation handle through init, form fill, a blocking user
confirmation, password fill, a second confirmation, user-info retrieval and
token retrieval inside a try block whose `finally` quits the browser
whenever a handle exists; at the terminal a non-empty token is written into
the cookie field with the required-token prefix and success is reported,
an empty token reports a warning. -/
def auto_register (st : Stubs) (b : BrowserStub) (s : AppState) :
    AppState × List Event :=
  let pre := save_env_vars st s
  let s1 := pre.1
  let tr1 := pre.2 ++ [Event.reloadEnv, Event.browserInit]
  match b.initRes with
  | Except.error m => (s1, tr1 ++ [Event.showError m])
  | Except.ok _ =>
    let tr2 := tr1 ++ [Event.fillForm]
    match b.fillFormRes with
    | Except.error m => (s1, tr2 ++ [Event.browserQuit, Event.showError m])
    | Except.ok _ =>
      let tr3 := tr2 ++ [Event.waitUser "请在浏览器中点击按钮，完成后点击继续...",
                         Event.fillPassword]
      match b.fillPasswordRes with
      | Except.error m => (s1, tr3 ++ [Event.browserQuit, Event.showError m])
      | Except.ok _ =>
        let tr4 := tr3 ++ [Event.waitUser "请在浏览器中完成注册和验证码验证，完成后点击继续...",
                           Event.getUserInfo]
        match b.getUserInfoRes with
        | Except.error m => (s1, tr4 ++ [Event.browserQuit, Event.showError m])
        | Except.ok _ =>
          let tr5 := tr4 ++ [Event.getToken]
          match b.getTokenRes with
          | Except.error m =>
              (s1, tr5 ++ [Event.browserQuit, Event.showError m])
          | Except.ok token =>
              if token ≠ "" then
                let s2 := { s1 with entries := { s1.entries with
                  cookie := requiredToken ++ "=" ++ token } }
                (s2, tr5 ++ [Event.showSuccess "自动注册成功，Token已填入",
                             Event.browserQuit])
              else
                (s1, tr5 ++ [Event.showWarning "获取Token失败",
                             Event.browserQuit])

/-- Scan a trace left to right, tracking whether a backup has already been
seen, and check that every store write is preceded by a backup. -/
def writesBackedUpAux : Bool → List Event → Bool
  | _, [] => true
  | _, Event.backup :: rest => writesBackedUpAux true rest
  | seen, Event.storeWrite _ :: rest => seen && writesBackedUpAux seen rest
  | seen, _ :: rest => writesBackedUpAux seen rest

/-- Every store write in the trace is preceded by a backup event. -/
def writesBackedUp (tr : List Event) : Bool :=
  writesBackedUpAux false tr

/-- Events of the Auto-Register state sequencer proper (browser steps and
user-confirmation waits), as opposed to setup, teardown and reporting. -/
def isSeqStep : Event → Bool
  | Event.browserInit => true
  | Event.fillForm => true
  | Event.waitUser _ => true
  | Event.fillPassword => true
  | Event.getUserInfo => true
  | Event.getToken => true
  | _ => false

/-- Stub outcomes where every external collaborator succeeds. -/
def stubsOk : Stubs :=
  { backupOk := true, updateEnvOk := true
    genResult := Sum.inl ⟨true, "ok", some ("e@x.com", "pw")⟩
    resetResult := ⟨true, "ID reset", none⟩
    processResult := ⟨true, "auth updated", none⟩ }

/-- A concrete state with a visible email field, an existing `.env` file and
an empty backup directory. -/
def stateEmail : AppState :=
  { entries := { domain := "", email := "a@b.c", password := "", cookie := "" }
    store := [("EMAIL", "old@b.c")]
    envFileExists := true
    backups := [] }

/-- Browser stub whose init step raises. -/
def browserInitFails : BrowserStub :=
  { initRes := Except.error "browser failed to start"
    fillFormRes := Except.ok (), fillPasswordRes := Except.ok ()
    getUserInfoRes := Except.ok (), getTokenRes := Except.ok "tok" }

/-- Browser stub where every step succeeds and the token comes back empty. -/
def browserEmptyToken : BrowserStub :=
  { initRes := Except.ok (), fillFormRes := Except.ok ()
    fillPasswordRes := Except.ok (), getUserInfoRes := Except.ok ()
    getTokenRes := Except.ok "" }

/-- Count of browser teardown invocations in a trace. -/
def quitCount : List Event → Nat
  | [] => 0
  | Event.browserQuit :: rest => quitCount rest + 1
  | _ :: rest => quitCount rest

/-- Replace the cookie entry field of a state. -/
def withCookie (c : String) (s : AppState) : AppState :=
  { s with entries := { s.entries with cookie := c } }

/-- Stub outcomes where account generation fails with a quota message. -/
def stubsQuota : Stubs :=
  { stubsOk with genResult := Sum.inl ⟨false, "quota exceeded", none⟩ }

/-- Concrete state with a visible domain field. -/
def stateDomain : AppState :=
  { stateEmail with entries := { stateEmail.entries with domain := "example.com" } }

/-- Concrete state with every entry field empty. -/
def stateBlank : AppState :=
  { entries := { domain := "", email := "", password := "", cookie := "" }
    store := [], envFileExists := true, backups := [] }

/-- Concrete state whose backing file is missing. -/
def stateNoEnv : AppState := { stateEmail with envFileExists := false }

theorem string_data_append (a b : String) : (a ++ b).data = a.data ++ b.data := by
  cases a; cases b; rfl

theorem pyStrip_isInfix (s : String) : (pyStrip s).data <:+: s.data := by
  obtain ⟨b, hb⟩ :=
    List.dropWhile_suffix (l := s.data) Char.isWhitespace
  obtain ⟨a, ha⟩ :=
    List.dropWhile_suffix
      (l := (s.data.dropWhile Char.isWhitespace).reverse) Char.isWhitespace
  refine ⟨b, a.reverse, ?_⟩
  have h1 :
      (List.dropWhile Char.isWhitespace
          (s.data.dropWhile Char.isWhitespace).reverse).reverse ++ a.reverse =
        s.data.dropWhile Char.isWhitespace := by
    rw [← List.reverse_append, ha, List.reverse_reverse]
  show b ++ (pyStrip s).data ++ a.reverse = s.data
  simp only [pyStrip]
  rw [List.append_assoc, h1, hb]

theorem containsSubstr_of_append_left (n x h : String)
    (hc : containsSubstr (n ++ x) h = true) : containsSubstr n h = true := by
  simp only [containsSubstr, decide_eq_true_eq] at hc ⊢
  have h0 : n.data <:+: (n ++ x).data := ⟨[], x.data, by simp [string_data_append]⟩
  exact h0.trans hc

theorem containsSubstr_strip_mono (n c : String)
    (hc : containsSubstr n (pyStrip c) = true) : containsSubstr n c = true := by
  simp only [containsSubstr, decide_eq_true_eq] at hc ⊢
  exact hc.trans (pyStrip_isInfix c)

theorem writesBackedUpAux_true : ∀ tr : List Event, writesBackedUpAux true tr = true := by
  intro tr
  induction tr with
  | nil => rfl
  | cons e rest ih => cases e <;> simp [writesBackedUpAux, ih]

theorem writesBackedUpAux_backup (rest : List Event) :
    writesBackedUpAux false (Event.backup :: rest) = true := by
  simp [writesBackedUpAux, writesBackedUpAux_true]

theorem save_env_vars_no_backup (st : Stubs) (s : AppState) :
    Event.backup ∉ (save_env_vars st s).2 := by
  by_cases h1 : visibleUpdates s.entries = [] <;>
    by_cases h2 : st.updateEnvOk <;>
      simp [save_env_vars, h1, h2]

theorem save_env_vars_no_quit (st : Stubs) (s : AppState) :
    Event.browserQuit ∉ (save_env_vars st s).2 := by
  by_cases h1 : visibleUpdates s.entries = [] <;>
    by_cases h2 : st.updateEnvOk <;>
      simp [save_env_vars, h1, h2]

theorem save_env_vars_no_error (st : Stubs) (s : AppState) (m : String) :
    Event.showError m ∉ (save_env_vars st s).2 := by
  by_cases h1 : visibleUpdates s.entries = [] <;>
    by_cases h2 : st.updateEnvOk <;>
      simp [save_env_vars, h1, h2]

theorem save_env_vars_no_seq_step (st : Stubs) (s : AppState) :
    (save_env_vars st s).2.filter isSeqStep = [] := by
  by_cases h1 : visibleUpdates s.entries = [] <;>
    by_cases h2 : st.updateEnvOk <;>
      simp [save_env_vars, h1, h2, isSeqStep]

theorem save_env_vars_entries (st : Stubs) (s : AppState) :
    (save_env_vars st s).1.entries = s.entries := by
  by_cases h1 : visibleUpdates s.entries = [] <;>
    by_cases h2 : st.updateEnvOk <;>
      simp [save_env_vars, h1, h2]

theorem quitCount_append (a b : List Event) :
    quitCount (a ++ b) = quitCount a + quitCount b := by
  induction a with
  | nil => simp [quitCount]
  | cons e rest ih => cases e <;> (simp [quitCount, ih]; try omega)

theorem quitCount_save (st : Stubs) (s : AppState) :
    quitCount (save_env_vars st s).2 = 0 := by
  by_cases h1 : visibleUpdates s.entries = [] <;>
    by_cases h2 : st.updateEnvOk <;>
      simp [save_env_vars, h1, h2, quitCount]

theorem writesBackedUp_cons_backup (tr : List Event) :
    writesBackedUp (Event.backup :: tr) = true := by
  simp [writesBackedUp, writesBackedUpAux, writesBackedUpAux_true]

/-- C2: for every cookie string that is empty after stripping, or that does
not contain the required token name as a substring, Update Auth shows a
warning and returns with no side effect: the state (store, backups, entry
fields) is unchanged and the trace is a single warning — so the backup step,
the external cookie-processing operation and all writes never happen. -/
theorem update_auth_invalid_cookie_no_side_effect (st : Stubs) (s : AppState)
    (h : pyStrip s.entries.cookie = "" ∨
         containsSubstr requiredToken s.entries.cookie = false) :
    (update_auth st s).1 = s ∧
    ((update_auth st s).2 = [Event.showWarning "请输入Cookie字符串"] ∨
     (update_auth st s).2 =
       [Event.showWarning "Cookie字符串格式不正确，必须包含 WorkosCursorSessionToken"]) := by
  rcases h with h | h
  · simp [update_auth, h]
  · by_cases he : pyStrip s.entries.cookie = ""
    · simp [update_auth, he]
    · have hc : containsSubstr (requiredToken ++ "=") (pyStrip s.entries.cookie) = false := by
        cases hcc : containsSubstr (requiredToken ++ "=") (pyStrip s.entries.cookie)
        · rfl
        · have h1 := containsSubstr_strip_mono (requiredToken ++ "=") s.entries.cookie hcc
          have h2 := containsSubstr_of_append_left requiredToken "=" s.entries.cookie h1
          rw [h] at h2
          exact absurd h2 (by simp)
      simp [update_auth, he, hc]

/-- Witness for C2 at the concrete cookie string "abc". -/
theorem update_auth_invalid_cookie_no_side_effect_witness :
    (pyStrip (withCookie "abc" stateEmail).entries.cookie = "" ∨
     containsSubstr requiredToken (withCookie "abc" stateEmail).entries.cookie = false) ∧
    (update_auth stubsOk (withCookie "abc" stateEmail)).1 = withCookie "abc" stateEmail ∧
    ((update_auth stubsOk (withCookie "abc" stateEmail)).2 =
       [Event.showWarning "请输入Cookie字符串"] ∨
     (update_auth stubsOk (withCookie "abc" stateEmail)).2 =
       [Event.showWarning "Cookie字符串格式不正确，必须包含 WorkosCursorSessionToken"]) :=
  ⟨by decide, update_auth_invalid_cookie_no_side_effect stubsOk _ (by decide)⟩

/-- C10: the Update Auth validation predicate demands the substring
"WorkosCursorSessionToken=" (token name immediately followed by an equals
sign), strictly stronger than containing the bare token name; in
particular the pre-filled default cookie value "WorkosCursorSessionToken"
passes the weaker check yet fails validation, triggering the format
warning with no side effect. -/
theorem update_auth_validation_requires_equals (st : Stubs) (s : AppState)
    (h : s.entries.cookie = "WorkosCursorSessionToken") :
    (∀ c : String, containsSubstr (requiredToken ++ "=") c = true →
       containsSubstr requiredToken c = true) ∧
    containsSubstr requiredToken "WorkosCursorSessionToken" = true ∧
    containsSubstr (requiredToken ++ "=") "WorkosCursorSessionToken" = false ∧
    update_auth st s =
      (s, [Event.showWarning "Cookie字符串格式不正确，必须包含 WorkosCursorSessionToken"]) := by
  refine ⟨fun c => containsSubstr_of_append_left requiredToken "=" c, by decide, by decide, ?_⟩
  have h1 : ¬ (pyStrip "WorkosCursorSessionToken" = "") := by decide
  have h2 : containsSubstr (requiredToken ++ "=") (pyStrip "WorkosCursorSessionToken") = false := by
    decide
  simp [update_auth, h, h1, h2]

/-- Witness for C10 at the pre-filled default cookie value. -/
theorem update_auth_validation_requires_equals_witness :
    (withCookie "WorkosCursorSessionToken" stateEmail).entries.cookie =
      "WorkosCursorSessionToken" ∧
    update_auth stubsOk (withCookie "WorkosCursorSessionToken" stateEmail) =
      (withCookie "WorkosCursorSessionToken" stateEmail,
       [Event.showWarning "Cookie字符串格式不正确，必须包含 WorkosCursorSessionToken"]) :=
  ⟨rfl, (update_auth_validation_requires_equals stubsOk _ rfl).2.2.2⟩

/-- C7: when the backing .env file does not exist, Generate Account aborts
at the backup step with only the missing-file error — no backup entry is
added, the store is untouched and the external generation operation is not
invoked — and Update Auth, once its cookie validation passes, aborts the
same way before calling the external cookie-processing operation. -/
theorem backup_missing_env_aborts (st : Stubs) (s : AppState)
    (h : s.envFileExists = false) :
    generate_account st s = (s, [Event.showError "未找到.env文件"]) ∧
    (containsSubstr (requiredToken ++ "=") (pyStrip s.entries.cookie) = true →
      update_auth st s = (s, [Event.showError "未找到.env文件"])) := by
  constructor
  · simp [generate_account, backup_env_file, h]
  · intro hc
    have hne : ¬ (pyStrip s.entries.cookie = "") := by
      intro he
      rw [he] at hc
      exact absurd hc (by decide)
    simp [update_auth, hne, hc, backup_env_file, h]

/-- Witness for C7 at a concrete state with a valid cookie and no backing
file. -/
theorem backup_missing_env_aborts_witness :
    (withCookie "WorkosCursorSessionToken=abc" stateNoEnv).envFileExists = false ∧
    generate_account stubsOk (withCookie "WorkosCursorSessionToken=abc" stateNoEnv) =
      (withCookie "WorkosCursorSessionToken=abc" stateNoEnv,
       [Event.showError "未找到.env文件"]) ∧
    update_auth stubsOk (withCookie "WorkosCursorSessionToken=abc" stateNoEnv) =
      (withCookie "WorkosCursorSessionToken=abc" stateNoEnv,
       [Event.showError "未找到.env文件"]) :=
  ⟨rfl,
   (backup_missing_env_aborts stubsOk _ rfl).1,
   (backup_missing_env_aborts stubsOk _ rfl).2 (by decide)⟩

/-- C1 counterexample: a Reset ID invocation with a successful stub writes
the visible email field to the store with no backup anywhere in the trace,
and an Auto Register invocation whose browser init fails (a failure after
all validation gates) has already written the store without any backup. -/
theorem workflow_writes_without_backup_counterexample :
    Event.storeWrite [("EMAIL", "a@b.c")] ∈ (reset_ID stubsOk stateEmail).2 ∧
    Event.backup ∉ (reset_ID stubsOk stateEmail).2 ∧
    (reset_ID stubsOk stateEmail).1.store ≠ stateEmail.store ∧
    writesBackedUp (reset_ID stubsOk stateEmail).2 = false ∧
    Event.storeWrite [("EMAIL", "a@b.c")] ∈
      (auto_register stubsOk browserInitFails stateEmail).2 ∧
    Event.backup ∉ (auto_register stubsOk browserInitFails stateEmail).2 ∧
    Event.showError "browser failed to start" ∈
      (auto_register stubsOk browserInitFails stateEmail).2 := by
  decide

/-- C1 amended: only Generate Account and Update Auth precede every store
write with a backup of the backing file within the same invocation; Reset
ID and Auto Register never invoke the backup step at all (so their store
writes are unprotected). -/
theorem backup_precedes_writes_amended (st : Stubs) (b : BrowserStub) (s : AppState) :
    writesBackedUp (generate_account st s).2 = true ∧
    writesBackedUp (update_auth st s).2 = true ∧
    Event.backup ∉ (reset_ID st s).2 ∧
    Event.backup ∉ (auto_register st b s).2 := by
  refine ⟨?_, ?_, ?_, ?_⟩
  · by_cases henv : s.envFileExists = true
    · by_cases hb : st.backupOk = true
      · simp [generate_account, backup_env_file, henv, hb, generate_account_rest,
              writesBackedUp]
        repeat' split
        all_goals simp [writesBackedUpAux, writesBackedUpAux_true]
      · simp [generate_account, backup_env_file, henv, hb,
              writesBackedUp, writesBackedUpAux]
    · simp [generate_account, backup_env_file, henv,
            writesBackedUp, writesBackedUpAux]
  · by_cases he : pyStrip s.entries.cookie = ""
    · simp [update_auth, he, writesBackedUp, writesBackedUpAux]
    · by_cases hc : containsSubstr (requiredToken ++ "=") (pyStrip s.entries.cookie) = true
      · by_cases henv : s.envFileExists = true
        · by_cases hb : st.backupOk = true
          · simp [update_auth, he, hc, backup_env_file, henv, hb, writesBackedUp]
            repeat' split
            all_goals simp [writesBackedUpAux, writesBackedUpAux_true]
          · simp [update_auth, he, hc, backup_env_file, henv, hb,
                  writesBackedUp, writesBackedUpAux]
        · simp [update_auth, he, hc, backup_env_file, henv,
                writesBackedUp, writesBackedUpAux]
      · simp [update_auth, he, hc, writesBackedUp, writesBackedUpAux]
  · by_cases hr : st.resetResult.success = true <;>
      simp [reset_ID, hr, save_env_vars_no_backup]
  · obtain ⟨ir, fr, pr, gr, tr⟩ := b
    cases ir <;> cases fr <;> cases pr <;> cases gr <;> cases tr <;>
      (simp [auto_register, save_env_vars_no_backup]
       repeat' split
       all_goals simp [save_env_vars_no_backup])

/-- C9: the update mapping built when persisting visible fields without an
explicit mapping contains exactly the recognized variables (DOMAIN, EMAIL,
PASSWORD) whose entry value is non-empty after stripping, bound to that
stripped value; a field empty after stripping is never written, and when
every recognized field is empty no store write is attempted and no warning
is shown (the invocation is a no-op). -/
theorem save_env_vars_nonempty_fields_only (st : Stubs) (s : AppState) :
    (∀ k v, (k, v) ∈ visibleUpdates s.entries →
       v ≠ "" ∧
       (k = "DOMAIN" ∧ v = pyStrip s.entries.domain ∨
        k = "EMAIL" ∧ v = pyStrip s.entries.email ∨
        k = "PASSWORD" ∧ v = pyStrip s.entries.password)) ∧
    (pyStrip s.entries.domain ≠ "" →
       ("DOMAIN", pyStrip s.entries.domain) ∈ visibleUpdates s.entries) ∧
    (pyStrip s.entries.email ≠ "" →
       ("EMAIL", pyStrip s.entries.email) ∈ visibleUpdates s.entries) ∧
    (pyStrip s.entries.password ≠ "" →
       ("PASSWORD", pyStrip s.entries.password) ∈ visibleUpdates s.entries) ∧
    (pyStrip s.entries.domain = "" → ∀ v, ("DOMAIN", v) ∉ visibleUpdates s.entries) ∧
    (pyStrip s.entries.email = "" → ∀ v, ("EMAIL", v) ∉ visibleUpdates s.entries) ∧
    (pyStrip s.entries.password = "" → ∀ v, ("PASSWORD", v) ∉ visibleUpdates s.entries) ∧
    (pyStrip s.entries.domain = "" → pyStrip s.entries.email = "" →
     pyStrip s.entries.password = "" → save_env_vars st s = (s, [])) := by
  by_cases hd : pyStrip s.entries.domain = "" <;>
    by_cases he : pyStrip s.entries.email = "" <;>
      by_cases hp : pyStrip s.entries.password = "" <;>
        refine ⟨?_, ?_, ?_, ?_, ?_, ?_, ?_, ?_⟩ <;>
          simp_all [visibleUpdates, save_env_vars] <;>
            aesop

/-- Witness for C9: with every entry field empty, persisting visible fields
is a no-op with an empty trace. -/
theorem save_env_vars_nonempty_fields_only_witness :
    save_env_vars stubsOk stateBlank = (stateBlank, []) :=
  (save_env_vars_nonempty_fields_only stubsOk stateBlank).2.2.2.2.2.2.2
    (by decide) (by decide) (by decide)

/-- C3 counterexample: with a non-empty visible domain field, a Generate
Account invocation whose generation stub fails with "quota exceeded" has
already persisted the domain into the store, so the store is mutated beyond
the backup created at the start. -/
theorem generate_quota_counterexample :
    (generate_account stubsQuota stateDomain).2 =
      [Event.backup, Event.storeWrite [("DOMAIN", "example.com")],
       Event.reloadEnv, Event.callGenerate, Event.showError "quota exceeded"] ∧
    (generate_account stubsQuota stateDomain).1.store ≠ stateDomain.store ∧
    (generate_account stubsQuota stateDomain).1.store =
      [("EMAIL", "old@b.c"), ("DOMAIN", "example.com")] := by
  decide

/-- C3 amended: for every Generate Account invocation whose visible domain
field is empty after stripping, when the external generation operation
returns a failure envelope with message "quota exceeded" the store is left
unmutated, exactly one backup snapshot is appended, and the workflow
reports exactly the error message "quota exceeded" and nothing else. -/
theorem generate_quota_exceeded_amended (st : Stubs) (s : AppState)
    (d : Option (String × String))
    (hdom : pyStrip s.entries.domain = "")
    (henv : s.envFileExists = true) (hb : st.backupOk = true)
    (hres : st.genResult = Sum.inl ⟨false, "quota exceeded", d⟩) :
    generate_account st s =
      ({ s with backups := s.backups ++ [s.store] },
       [Event.backup, Event.callGenerate, Event.showError "quota exceeded"]) := by
  simp [generate_account, backup_env_file, henv, hb, hdom, generate_account_rest,
        genTruthy, hres, genMessage]

/-- Witness for C3 as amended, at a concrete state with an empty domain
field. -/
theorem generate_quota_exceeded_amended_witness :
    pyStrip stateEmail.entries.domain = "" ∧
    stateEmail.envFileExists = true ∧
    stubsQuota.backupOk = true ∧
    stubsQuota.genResult = Sum.inl ⟨false, "quota exceeded", none⟩ ∧
    generate_account stubsQuota stateEmail =
      ({ stateEmail with backups := stateEmail.backups ++ [stateEmail.store] },
       [Event.backup, Event.callGenerate, Event.showError "quota exceeded"]) :=
  ⟨by decide, rfl, rfl, rfl,
   generate_quota_exceeded_amended stubsQuota stateEmail none (by decide) rfl rfl rfl⟩

/-- C6: on the success path, Generate Account performs exactly: backup the
store; if the stripped domain value is non-empty, persist it and reload the
environment; invoke the external generation operation; extract email and
password — from a structured Result envelope or a legacy plain tuple alike —
overwrite the visible email/password fields, report success, and only then
persist the visible fields into the store. -/
theorem generate_account_success_order (st : Stubs) (s : AppState) (e p m : String)
    (henv : s.envFileExists = true) (hb : st.backupOk = true)
    (hu : st.updateEnvOk = true)
    (hres : st.genResult = Sum.inl ⟨true, m, some (e, p)⟩ ∨
            st.genResult = Sum.inr (e, p)) :
    generate_account st s =
      (let d := pyStrip s.entries.domain
       let s1 : AppState := { s with backups := s.backups ++ [s.store] }
       let s2 : AppState :=
         if d = "" then s1
         else { s1 with store := mergeStore s1.store [("DOMAIN", d)] }
       let s3 : AppState :=
         { s2 with entries := { s2.entries with email := e, password := p } }
       ((save_env_vars st s3).1,
        [Event.backup] ++
          (if d = "" then [] else [Event.storeWrite [("DOMAIN", d)], Event.reloadEnv]) ++
          [Event.callGenerate, Event.showSuccess "账号生成成功"] ++
          (save_env_vars st s3).2)) := by
  rcases hres with h | h <;>
    by_cases hd : pyStrip s.entries.domain = "" <;>
      simp [generate_account, backup_env_file, henv, hb, hu, hd,
            generate_account_rest, genTruthy, genCredsE, h]

/-- Witness for C6 at a concrete state and both result shapes collapsed to
the structured envelope. -/
theorem generate_account_success_order_witness :
    stateDomain.envFileExists = true ∧
    stubsOk.backupOk = true ∧
    stubsOk.updateEnvOk = true ∧
    (stubsOk.genResult = Sum.inl ⟨true, "ok", some ("e@x.com", "pw")⟩ ∨
     stubsOk.genResult = Sum.inr ("e@x.com", "pw")) ∧
    generate_account stubsOk stateDomain =
      (let d := pyStrip stateDomain.entries.domain
       let s1 : AppState := { stateDomain with backups := stateDomain.backups ++ [stateDomain.store] }
       let s2 : AppState :=
         if d = "" then s1
         else { s1 with store := mergeStore s1.store [("DOMAIN", d)] }
       let s3 : AppState :=
         { s2 with entries := { s2.entries with email := "e@x.com", password := "pw" } }
       ((save_env_vars stubsOk s3).1,
        [Event.backup] ++
          (if d = "" then [] else [Event.storeWrite [("DOMAIN", d)], Event.reloadEnv]) ++
          [Event.callGenerate, Event.showSuccess "账号生成成功"] ++
          (save_env_vars stubsOk s3).2)) :=
  ⟨rfl, rfl, rfl, Or.inl rfl,
   generate_account_success_order stubsOk stateDomain "e@x.com" "pw" "ok"
     rfl rfl rfl (Or.inl rfl)⟩

/-- C8: when the cookie string passes validation and the external
cookie-processing operation succeeds, Update Auth performs exactly: backup
the store, invoke the processing operation on the stripped cookie string,
report success with the operation message, clear the cookie entry field,
and then persist the visible recognized fields, in that order. -/
theorem update_auth_success_order (st : Stubs) (s : AppState)
    (hc : containsSubstr (requiredToken ++ "=") (pyStrip s.entries.cookie) = true)
    (henv : s.envFileExists = true) (hb : st.backupOk = true)
    (hp : st.processResult.success = true) :
    update_auth st s =
      (let s1 : AppState := { s with backups := s.backups ++ [s.store] }
       let s2 : AppState := { s1 with entries := { s1.entries with cookie := "" } }
       ((save_env_vars st s2).1,
        [Event.backup, Event.callProcessCookies (pyStrip s.entries.cookie),
         Event.showSuccess st.processResult.message] ++ (save_env_vars st s2).2)) ∧
    (update_auth st s).1.entries.cookie = "" := by
  have hne : ¬ (pyStrip s.entries.cookie = "") := by
    intro he
    rw [he] at hc
    exact absurd hc (by decide)
  have h1 : update_auth st s =
      (let s1 : AppState := { s with backups := s.backups ++ [s.store] }
       let s2 : AppState := { s1 with entries := { s1.entries with cookie := "" } }
       ((save_env_vars st s2).1,
        [Event.backup, Event.callProcessCookies (pyStrip s.entries.cookie),
         Event.showSuccess st.processResult.message] ++ (save_env_vars st s2).2)) := by
    simp [update_auth, hne, hc, backup_env_file, henv, hb, hp]
  refine ⟨h1, ?_⟩
  rw [h1]
  simp [save_env_vars_entries]

/-- Witness for C8 at the cookie string "WorkosCursorSessionToken=abc123"
and an all-success stub. -/
theorem update_auth_success_order_witness :
    containsSubstr (requiredToken ++ "=")
      (pyStrip (withCookie "WorkosCursorSessionToken=abc123" stateEmail).entries.cookie) = true ∧
    (update_auth stubsOk (withCookie "WorkosCursorSessionToken=abc123" stateEmail)).1.entries.cookie = "" :=
  ⟨by decide,
   (update_auth_success_order stubsOk (withCookie "WorkosCursorSessionToken=abc123" stateEmail)
     (by decide) rfl rfl rfl).2⟩

/-- C5: when every browser step succeeds, the Auto-Register sequencer
executes exactly browser-init, fill-registration-form, a blocking user
confirmation, fill-password, a second blocking confirmation, get-user-info
and get-token, in that order with nothing skipped, repeated or reordered;
at the terminal a non-empty token is written into the cookie field as the
required-token-name prefix plus the token with success reported, and an
empty token reports a warning with the state otherwise unchanged. -/
theorem auto_register_linear_sequencer (st : Stubs) (b : BrowserStub) (s : AppState)
    (token : String)
    (h1 : b.initRes = Except.ok ()) (h2 : b.fillFormRes = Except.ok ())
    (h3 : b.fillPasswordRes = Except.ok ()) (h4 : b.getUserInfoRes = Except.ok ())
    (h5 : b.getTokenRes = Except.ok token) :
    (auto_register st b s).2.filter isSeqStep =
      [Event.browserInit, Event.fillForm,
       Event.waitUser "请在浏览器中点击按钮，完成后点击继续...", Event.fillPassword,
       Event.waitUser "请在浏览器中完成注册和验证码验证，完成后点击继续...",
       Event.getUserInfo, Event.getToken] ∧
    (token ≠ "" →
      (auto_register st b s).1.entries.cookie = requiredToken ++ "=" ++ token ∧
      Event.showSuccess "自动注册成功，Token已填入" ∈ (auto_register st b s).2) ∧
    (token = "" →
      Event.showWarning "获取Token失败" ∈ (auto_register st b s).2 ∧
      (auto_register st b s).1 = (save_env_vars st s).1) := by
  by_cases ht : token = ""
  · subst ht
    simp [auto_register, h1, h2, h3, h4, h5, List.filter_append,
          save_env_vars_no_seq_step, isSeqStep]
  · refine ⟨?_, fun _ => ⟨?_, ?_⟩, fun hcontra => absurd hcontra ht⟩ <;>
      simp [auto_register, h1, h2, h3, h4, h5, ht, List.filter_append,
            save_env_vars_no_seq_step, isSeqStep, save_env_vars_entries]

/-- Witness for C5 with an all-success browser stub returning the empty
token. -/
theorem auto_register_linear_sequencer_witness :
    (auto_register stubsOk browserEmptyToken stateEmail).2.filter isSeqStep =
      [Event.browserInit, Event.fillForm,
       Event.waitUser "请在浏览器中点击按钮，完成后点击继续...", Event.fillPassword,
       Event.waitUser "请在浏览器中完成注册和验证码验证，完成后点击继续...",
       Event.getUserInfo, Event.getToken] ∧
    Event.showWarning "获取Token失败" ∈ (auto_register stubsOk browserEmptyToken stateEmail).2 :=
  ⟨(auto_register_linear_sequencer stubsOk browserEmptyToken stateEmail ""
      rfl rfl rfl rfl rfl).1,
   ((auto_register_linear_sequencer stubsOk browserEmptyToken stateEmail ""
      rfl rfl rfl rfl rfl).2.2 rfl).1⟩

/-- C4: once the browser-init step has succeeded (a handle exists), every
Auto Register execution — normal completion, empty token, or a failure at
any later step — invokes the browser teardown exactly once; and when
get-token returns the empty token the workflow completes with a warning and
no error while teardown still runs exactly once. -/
theorem auto_register_teardown_exactly_once (st : Stubs) (b : BrowserStub) (s : AppState)
    (h : b.initRes = Except.ok ()) :
    quitCount (auto_register st b s).2 = 1 ∧
    (b.fillFormRes = Except.ok () → b.fillPasswordRes = Except.ok () →
     b.getUserInfoRes = Except.ok () → b.getTokenRes = Except.ok "" →
       Event.showWarning "获取Token失败" ∈ (auto_register st b s).2 ∧
       ∀ m, Event.showError m ∉ (auto_register st b s).2) := by
  obtain ⟨ir, fr, pr, gr, tr⟩ := b
  dsimp only at h
  subst h
  constructor
  · simp only [auto_register]
    repeat' split
    all_goals
      (simp only [quitCount_append, quitCount_save]
       simp [quitCount])
  · intro hf hp hg ht
    dsimp only at hf hp hg ht
    subst hf; subst hp; subst hg; subst ht
    simp only [auto_register]
    refine ⟨by simp, fun m => ?_⟩
    simp [save_env_vars_no_error]

/-- Witness for C4: with the all-success empty-token browser stub the
teardown count is one and the warning is reported. -/
theorem auto_register_teardown_exactly_once_witness :
    quitCount (auto_register stubsOk browserEmptyToken stateEmail).2 = 1 ∧
    Event.showWarning "获取Token失败" ∈
      (auto_register stubsOk browserEmptyToken stateEmail).2 :=
  ⟨(auto_register_teardown_exactly_once stubsOk browserEmptyToken stateEmail rfl).1,
   ((auto_register_teardown_exactly_once stubsOk browserEmptyToken stateEmail rfl).2
      rfl rfl rfl rfl).1⟩

end CursorApp
